import Mathlib

/-!
Shallow embedding of the `prowl` crate (`src/lib.rs`): a client library that
validates a push-notification payload (`Notification::new`) and sends it to
the Prowl API via one HTTP POST with all parameters in the query string
(`Notification::add`).

Rust strings are modelled as their UTF-8 byte sequences (`List Nat`, each
element a byte value), because the length checks in `new` are on the raw byte
length (`String::len`) and the percent-encoding in `add` operates byte-wise.
-/

namespace Prowl

/-- A Rust `String`, viewed as its sequence of UTF-8 bytes. -/
abbrev RStr := List Nat

/-- UTF-8 encoding of a single character, as byte values. -/
def utf8Bytes (c : Char) : List Nat :=
  let n := c.toNat
  if n < 0x80 then [n]
  else if n < 0x800 then [0xC0 + n / 0x40, 0x80 + n % 0x40]
  else if n < 0x10000 then
    [0xE0 + n / 0x1000, 0x80 + (n / 0x40) % 0x40, 0x80 + n % 0x40]
  else
    [0xF0 + n / 0x40000, 0x80 + (n / 0x1000) % 0x40,
      0x80 + (n / 0x40) % 0x40, 0x80 + n % 0x40]

/-- The bytes of a Lean string literal, used to transcribe the Rust string
literals of the source. -/
def strBytes (s : String) : RStr := s.data.flatMap utf8Bytes

/-- Source constant `const MAX_URL_LEN: usize = 512;`. -/
def MAX_URL_LEN : Nat := 512

/-- Source constant `const MAX_APP_LEN: usize = 256;`. -/
def MAX_APP_LEN : Nat := 256

/-- Source constant `const MAX_EVENT_LEN: usize = 1024;`. -/
def MAX_EVENT_LEN : Nat := 1024

/-- Source constant `const MAX_DESC_LEN: usize = 10000;`. -/
def MAX_DESC_LEN : Nat := 10000

/-- The `enum Priority` of the source. -/
inductive Priority where
  | VeryLow
  | Moderate
  | Normal
  | High
  | Emergency
deriving DecidableEq, Repr

/-- Rust `Priority::as_i8` from the source. -/
def Priority.as_i8 : Priority → Int
  | .VeryLow => -2
  | .Moderate => -1
  | .Normal => 0
  | .High => 1
  | .Emergency => 2

/-- The `enum CreationError` of the source; each variant carries the
offending actual length (`usize`). -/
inductive CreationError where
  | InvalidUrlLength (len : Nat)
  | ApplicationLength (len : Nat)
  | EventLength (len : Nat)
  | DescriptionLength (len : Nat)
deriving DecidableEq, Repr

/-- An HTTP response (`reqwest::Response`), abstracted to its status code and
body bytes: the only parts `add` and its callers inspect. -/
structure Response where
  status : Nat
  body : RStr
deriving DecidableEq, Repr

/-- A transport-level failure (`reqwest::Error`), abstracted to a numeric
cause identifier. -/
structure TransportFailure where
  cause : Nat
deriving DecidableEq, Repr

/-- Rust `std::fmt::Error`: a unit struct. -/
inductive FmtError where
  | mk
deriving DecidableEq, Repr

/-- The `enum AddError` of the source. -/
inductive AddError where
  | Api (resp : Response)
  | Send (err : TransportFailure)
  | Format (err : FmtError)
deriving DecidableEq, Repr

/-- The `struct Notification` of the source, fields in source order. -/
structure Notification where
  api_keys : List RStr
  priority : Option Priority
  url : Option RStr
  application : RStr
  event : RStr
  description : RStr
deriving DecidableEq, Repr

/-- Rust `Notification::new` from the source: the four length checks in
source order, each returning early with the matching `CreationError`, then
the struct literal `Ok(Self { .. })`. -/
def Notification.new (api_keys : List RStr) (priority : Option Priority)
    (url : Option RStr) (application event description : RStr) :
    Except CreationError Notification :=
  if application.length > MAX_APP_LEN then
    .error (.ApplicationLength application.length)
  else if event.length > MAX_EVENT_LEN then
    .error (.EventLength event.length)
  else if description.length > MAX_DESC_LEN then
    .error (.DescriptionLength description.length)
  else
    match url with
    | some u =>
      if u.length > MAX_URL_LEN then
        .error (.InvalidUrlLength u.length)
      else
        .ok ⟨api_keys, priority, some u, application, event, description⟩
    | none => .ok ⟨api_keys, priority, none, application, event, description⟩

/-- The unreserved bytes that `urlencoding::encode` leaves intact:
`A-Z`, `a-z`, `0-9`, `-`, `.`, `_`, `~`. -/
def isUnreservedByte (b : Nat) : Bool :=
  (65 ≤ b && b ≤ 90) || (97 ≤ b && b ≤ 122) || (48 ≤ b && b ≤ 57) ||
    b == 45 || b == 46 || b == 95 || b == 126

/-- Uppercase hexadecimal digit character for a value below 16. -/
def hexUpper (n : Nat) : Nat := if n < 10 then 48 + n else 55 + n

/-- How `urlencoding::encode` renders one byte: unreserved bytes pass
through, every other byte becomes `%` followed by two uppercase hex
digits. -/
def encodeByte (b : Nat) : List Nat :=
  if isUnreservedByte b then [b] else [37, hexUpper (b / 16), hexUpper (b % 16)]

/-- The function `urlencoding::encode` of the `urlencoding` crate, applied
byte-wise. -/
def urlencode (s : RStr) : RStr := s.flatMap encodeByte

/-- Rust `Vec::<String>::join(",")` as used on `self.api_keys` in `add`. -/
def joinComma : List RStr → RStr
  | [] => []
  | [k] => k
  | k :: ks => k ++ [44] ++ joinComma ks

/-- The `std::fmt::Write` implementation for `String`: appending to an
in-memory string always succeeds (`String::write_str` returns `Ok`), which is
what each `write!(url, ...)?` in `add` relies on. -/
def writeStr (buf s : RStr) : Except FmtError RStr := .ok (buf ++ s)

/-- Decimal rendering of a signed integer, as the `{}` format specifier
prints `priority.as_i8()`. -/
def intDecimal (i : Int) : RStr := strBytes (toString i)

/-- The URL-building part of `Notification::add` (lines 154-171 of the
source): starts from the base endpoint string and appends each query
parameter with `write!`, propagating any `fmt::Error`. -/
def Notification.buildUrl (n : Notification) : Except FmtError RStr := do
  let url : RStr := strBytes (r"https://prowl.weks.net/publicapi/add")
  let url ← writeStr url (strBytes (r"?apikey=") ++ joinComma n.api_keys)
  let url ← writeStr url (strBytes (r"&application=") ++ urlencode n.application)
  let url ← writeStr url (strBytes (r"&event=") ++ urlencode n.event)
  let url ← writeStr url (strBytes (r"&description=") ++ urlencode n.description)
  let url ← match n.url with
    | some notification_url =>
        writeStr url (strBytes (r"&url=") ++ urlencode notification_url)
    | none => pure url
  let url ← match n.priority with
    | some priority =>
        writeStr url (strBytes (r"&priority=") ++ intDecimal priority.as_i8)
    | none => pure url
  return url

/-- Outcome of the one HTTP POST that `add` issues
(`client.post(url).send().await`): either a response arrived or the
transport failed. -/
inductive SendOutcome where
  | ok (resp : Response)
  | err (e : TransportFailure)
deriving DecidableEq, Repr

/-- Rust `Notification::add` from the source, with the network abstracted:
the given `outcome` is what the single `send().await` of the request
returns. The second component records the URLs actually POSTed during the
call, so that request-count claims can be stated. A `fmt::Error` while
building the URL would propagate as `AddError::Format` before any request is
made; a transport failure converts to `AddError::Send` via `From`; a
response with status other than 200 becomes `AddError::Api(res)`, and status
200 yields `Ok(())`. -/
def Notification.add (n : Notification) (outcome : SendOutcome) :
    Except AddError Unit × List RStr :=
  match n.buildUrl with
  | .error e => (.error (.Format e), [])
  | .ok url =>
    match outcome with
    | .err e => (.error (.Send e), [url])
    | .ok res =>
      if res.status ≠ 200 then (.error (.Api res), [url])
      else (.ok (), [url])

/-- Value of a hexadecimal digit character, for standard percent-decoding. -/
def hexVal (c : Nat) : Option Nat :=
  if 48 ≤ c ∧ c ≤ 57 then some (c - 48)
  else if 65 ≤ c ∧ c ≤ 70 then some (c - 55)
  else if 97 ≤ c ∧ c ≤ 102 then some (c - 87)
  else none

/-- Standard percent-decoding of a byte sequence: `%HH` becomes the byte it
denotes; anything else passes through. -/
def percentDecode : List Nat → List Nat
  | [] => []
  | 37 :: h :: l :: rest =>
    match hexVal h, hexVal l with
    | some hv, some lv => (16 * hv + lv) :: percentDecode rest
    | _, _ => 37 :: percentDecode (h :: l :: rest)
  | c :: rest => c :: percentDecode rest

/-- Everything `add` appends to the URL before the optional `priority`
parameter; helper for stating which query parameters appear and in which
order. -/
def queryCore (n : Notification) : RStr :=
  strBytes (r"https://prowl.weks.net/publicapi/add") ++
    strBytes (r"?apikey=") ++ joinComma n.api_keys ++
    strBytes (r"&application=") ++ urlencode n.application ++
    strBytes (r"&event=") ++ urlencode n.event ++
    strBytes (r"&description=") ++ urlencode n.description ++
    (match n.url with
     | some u => strBytes (r"&url=") ++ urlencode u
     | none => [])

/-- The query-string tail that `add` appends after the `apikey` parameter. -/
def afterApikey (n : Notification) : RStr :=
  strBytes (r"&application=") ++ urlencode n.application ++
    strBytes (r"&event=") ++ urlencode n.event ++
    strBytes (r"&description=") ++ urlencode n.description ++
    (match n.url with
     | some u => strBytes (r"&url=") ++ urlencode u
     | none => []) ++
    (match n.priority with
     | some p => strBytes (r"&priority=") ++ intDecimal p.as_i8
     | none => [])

/-- The URL built by `add` is the priority-less core followed by the
optional `priority` parameter. -/
lemma buildUrl_eq_core (n : Notification) :
    n.buildUrl = .ok (queryCore n ++
      (match n.priority with
       | some p => strBytes (r"&priority=") ++ intDecimal p.as_i8
       | none => ([] : RStr))) := by
  rcases n with ⟨ks, pr, u, app, ev, d⟩
  cases u <;> cases pr <;>
    exact congrArg Except.ok (by simp [queryCore, List.append_assoc])

/-- Construction succeeds and preserves every field when all four length
bounds hold. -/
lemma new_ok_of_bounds (ks : List RStr) (pr : Option Priority)
    (url : Option RStr) (app ev d : RStr) (happ : app.length ≤ 256)
    (hev : ev.length ≤ 1024) (hd : d.length ≤ 10000)
    (hurl : ∀ u, url = some u → u.length ≤ 512) :
    Notification.new ks pr url app ev d = .ok ⟨ks, pr, url, app, ev, d⟩ := by
  cases url with
  | none =>
    simp [Notification.new, MAX_APP_LEN, MAX_EVENT_LEN, MAX_DESC_LEN,
      Nat.not_lt.mpr happ, Nat.not_lt.mpr hev, Nat.not_lt.mpr hd]
  | some u =>
    have hu := hurl u rfl
    simp [Notification.new, MAX_APP_LEN, MAX_EVENT_LEN, MAX_DESC_LEN,
      MAX_URL_LEN, Nat.not_lt.mpr happ, Nat.not_lt.mpr hev, Nat.not_lt.mpr hd,
      Nat.not_lt.mpr hu]

/-- A byte other than `%` always decodes to itself in front of any tail. -/
lemma percentDecode_cons_of_ne (c : Nat) (hc : c ≠ 37) (l : List Nat) :
    percentDecode (c :: l) = c :: percentDecode l := by
  rw [percentDecode.eq_def]
  split <;> simp_all

/-- Reading back an uppercase hex digit returns the encoded value. -/
lemma hexVal_hexUpper (n : Nat) (hn : n < 16) : hexVal (hexUpper n) = some n := by
  interval_cases n <;> rfl

/-- A percent-escape produced for a byte below 256 decodes back to that
byte. -/
lemma percentDecode_escape (b : Nat) (hb : b < 256) (rest : List Nat) :
    percentDecode (37 :: hexUpper (b / 16) :: hexUpper (b % 16) :: rest) =
      b :: percentDecode rest := by
  have h1 : hexVal (hexUpper (b / 16)) = some (b / 16) :=
    hexVal_hexUpper _ (by omega)
  have h2 : hexVal (hexUpper (b % 16)) = some (b % 16) :=
    hexVal_hexUpper _ (by omega)
  rw [percentDecode.eq_def]
  simp [h1, h2]
  omega

/-- Rust `Vec::join(",")` agrees with comma intercalation. -/
lemma joinComma_eq_intercalate (ks : List RStr) :
    joinComma ks = List.intercalate [44] ks := by
  induction ks with
  | nil => rfl
  | cons k ks ih =>
    cases ks with
    | nil => simp [joinComma, List.intercalate]
    | cons k2 ks2 =>
      simp [joinComma, ih, List.intercalate, List.intersperse_cons_cons,
        List.append_assoc]

/-- Claim C1: whenever the application is at most 256 bytes, the event at
most 1024, the description at most 10000 and a supplied url at most 512,
`Notification::new` returns `Ok` and every field of the returned
`Notification` equals the corresponding input. -/
theorem new_returns_inputs_when_valid (ks : List RStr) (pr : Option Priority)
    (url : Option RStr) (app ev d : RStr) (happ : app.length ≤ 256)
    (hev : ev.length ≤ 1024) (hd : d.length ≤ 10000)
    (hurl : ∀ u, url = some u → u.length ≤ 512) :
    Notification.new ks pr url app ev d = .ok ⟨ks, pr, url, app, ev, d⟩ :=
  new_ok_of_bounds ks pr url app ev d happ hev hd hurl

/-- Witness for C1 at a concrete valid input. -/
theorem new_returns_inputs_when_valid_witness :
    Notification.new [strBytes (r"KEY1")] (some Priority.Normal)
        (some (strBytes (r"http://rust-lang.org/"))) (strBytes (r"App"))
        (strBytes (r"Evt")) (strBytes (r"Desc")) =
      .ok ⟨[strBytes (r"KEY1")], some Priority.Normal,
        some (strBytes (r"http://rust-lang.org/")), strBytes (r"App"),
        strBytes (r"Evt"), strBytes (r"Desc")⟩ :=
  new_returns_inputs_when_valid _ _ _ _ _ _ (by decide) (by decide) (by decide)
    (by intro u hu; injection hu with h; subst h; decide)

/-- Claim C2: the length checks run in the order application, event,
description, url; the first exceeded limit determines the error variant,
which carries the offending string's actual length, and no `Notification`
is returned on error. In particular an over-long application wins over an
over-long event. -/
theorem new_checks_in_order (ks : List RStr) (pr : Option Priority)
    (url : Option RStr) (app ev d : RStr) :
    (app.length > 256 →
      Notification.new ks pr url app ev d =
        .error (.ApplicationLength app.length)) ∧
    (app.length ≤ 256 → ev.length > 1024 →
      Notification.new ks pr url app ev d = .error (.EventLength ev.length)) ∧
    (app.length ≤ 256 → ev.length ≤ 1024 → d.length > 10000 →
      Notification.new ks pr url app ev d =
        .error (.DescriptionLength d.length)) ∧
    (∀ u, url = some u → app.length ≤ 256 → ev.length ≤ 1024 →
      d.length ≤ 10000 → u.length > 512 →
      Notification.new ks pr url app ev d =
        .error (.InvalidUrlLength u.length)) := by
  refine ⟨fun h1 => ?_, fun h1 h2 => ?_, fun h1 h2 h3 => ?_,
    fun u hu h1 h2 h3 h4 => ?_⟩
  · simp [Notification.new, MAX_APP_LEN, h1]
  · simp [Notification.new, MAX_APP_LEN, MAX_EVENT_LEN, Nat.not_lt.mpr h1, h2]
  · simp [Notification.new, MAX_APP_LEN, MAX_EVENT_LEN, MAX_DESC_LEN,
      Nat.not_lt.mpr h1, Nat.not_lt.mpr h2, h3]
  · subst hu
    simp [Notification.new, MAX_APP_LEN, MAX_EVENT_LEN, MAX_DESC_LEN,
      MAX_URL_LEN, Nat.not_lt.mpr h1, Nat.not_lt.mpr h2, Nat.not_lt.mpr h3, h4]

/-- Witness for C2: each check at a concrete over-long input; in the first
conjunct both the application and the event exceed their limits and the
error is still `ApplicationLength`. -/
theorem new_checks_in_order_witness :
    (Notification.new [] none none (List.replicate 257 97)
        (List.replicate 1025 98) [] =
      .error (.ApplicationLength (List.replicate 257 97).length)) ∧
    (Notification.new [] none none [] (List.replicate 1025 98) [] =
      .error (.EventLength (List.replicate 1025 98).length)) ∧
    (Notification.new [] none none [] [] (List.replicate 10001 99) =
      .error (.DescriptionLength (List.replicate 10001 99).length)) ∧
    (Notification.new [] none (some (List.replicate 513 100)) [] [] [] =
      .error (.InvalidUrlLength (List.replicate 513 100).length)) :=
  ⟨(new_checks_in_order [] none none _ _ []).1
     (by rw [List.length_replicate]; omega),
   (new_checks_in_order [] none none [] _ []).2.1 (by simp)
     (by rw [List.length_replicate]; omega),
   (new_checks_in_order [] none none [] [] _).2.2.1 (by simp) (by simp)
     (by rw [List.length_replicate]; omega),
   (new_checks_in_order [] none (some _) [] [] []).2.2.2 _ rfl (by simp)
     (by simp) (by simp) (by rw [List.length_replicate]; omega)⟩

/-- Claim C3: the URL that `add` constructs is the base endpoint followed by
the query parameters in the fixed order apikey, application, event,
description, then url only when present, then priority only when present;
the three text fields and the url are percent-encoded and the priority is
its signed integer code. -/
theorem add_url_fixed_order (n : Notification) :
    n.buildUrl = .ok (
      strBytes (r"https://prowl.weks.net/publicapi/add") ++
      strBytes (r"?apikey=") ++ joinComma n.api_keys ++
      strBytes (r"&application=") ++ urlencode n.application ++
      strBytes (r"&event=") ++ urlencode n.event ++
      strBytes (r"&description=") ++ urlencode n.description ++
      (match n.url with
       | some u => strBytes (r"&url=") ++ urlencode u
       | none => []) ++
      (match n.priority with
       | some p => strBytes (r"&priority=") ++ intDecimal p.as_i8
       | none => [])) := by
  rw [buildUrl_eq_core n]
  exact congrArg Except.ok (by simp [queryCore, List.append_assoc])

/-- Claim C4: `add` succeeds exactly when the response status is 200, a
non-200 response yields `AddError::Api` carrying that response, a transport
failure yields `AddError::Send` wrapping the cause, and exactly one request
is issued per call. -/
theorem add_http_semantics (n : Notification) (outcome : SendOutcome) :
    ((n.add outcome).2.length = 1) ∧
    (∀ e, outcome = .err e → (n.add outcome).1 = .error (.Send e)) ∧
    (∀ r, outcome = .ok r →
      (((n.add outcome).1 = .ok ()) ↔ r.status = 200)) ∧
    (∀ r, outcome = .ok r → r.status ≠ 200 →
      (n.add outcome).1 = .error (.Api r)) := by
  have h := buildUrl_eq_core n
  unfold Notification.add
  rw [h]
  cases outcome with
  | ok r => by_cases hs : r.status = 200 <;> simp [hs]
  | err e => simp

/-- Witness for C4: a 200 response yields success, a 500 response yields
`Api`, a transport failure yields `Send`. -/
theorem add_http_semantics_witness :
    (((⟨[], none, none, [], [], []⟩ : Notification).add
        (SendOutcome.ok ⟨200, []⟩)).1 = .ok ()) ∧
    (((⟨[], none, none, [], [], []⟩ : Notification).add
        (SendOutcome.ok ⟨500, []⟩)).1 = .error (.Api ⟨500, []⟩)) ∧
    (((⟨[], none, none, [], [], []⟩ : Notification).add
        (SendOutcome.err ⟨7⟩)).1 = .error (.Send ⟨7⟩)) :=
  ⟨((add_http_semantics _ _).2.2.1 ⟨200, []⟩ rfl).mpr rfl,
   (add_http_semantics _ _).2.2.2 ⟨500, []⟩ rfl (by decide),
   (add_http_semantics _ _).2.1 ⟨7⟩ rfl⟩

/-- Claim C5: percent-decoding the value that `add` places in the query
string for application, event, description or url yields back the original
raw byte string, for every byte string (in particular ones containing
spaces, `&`, `=`, `%` and non-ASCII bytes). -/
theorem urlencode_roundtrip (s : RStr) (hs : ∀ b ∈ s, b < 256) :
    percentDecode (urlencode s) = s := by
  induction s with
  | nil => rfl
  | cons b t ih =>
    have hb : b < 256 := hs b (List.mem_cons_self b t)
    have ht : ∀ x ∈ t, x < 256 := fun x hx => hs x (List.mem_cons_of_mem b hx)
    have hrec := ih ht
    simp only [urlencode, List.flatMap_cons] at hrec ⊢
    by_cases hu : isUnreservedByte b
    · have hb37 : b ≠ 37 := by
        rintro rfl
        exact absurd hu (by decide)
      rw [encodeByte, if_pos hu, List.singleton_append,
        percentDecode_cons_of_ne b hb37, hrec]
    · rw [encodeByte, if_neg hu, List.cons_append, List.cons_append,
        List.cons_append, List.nil_append, percentDecode_escape b hb, hrec]

/-- Witness for C5 on a string containing a space, `&`, `=`, `%` and the
non-ASCII character `é`. -/
theorem urlencode_roundtrip_witness :
    (∀ b ∈ strBytes (r"a b&c=d%é~"), b < 256) ∧
    percentDecode (urlencode (strBytes (r"a b&c=d%é~"))) =
      strBytes (r"a b&c=d%é~") :=
  ⟨by decide, urlencode_roundtrip _ (by decide)⟩

/-- Claim C6: the priority codes are VeryLow→-2, Moderate→-1, Normal→0,
High→1, Emergency→2, and a `Notification` whose priority is `None` gets a
URL with no `priority` query parameter at all, while `Some p` appends
exactly `&priority=` and the code. -/
theorem priority_codes_and_none_omitted :
    (Priority.as_i8 .VeryLow = -2 ∧ Priority.as_i8 .Moderate = -1 ∧
      Priority.as_i8 .Normal = 0 ∧ Priority.as_i8 .High = 1 ∧
      Priority.as_i8 .Emergency = 2) ∧
    (∀ n : Notification, n.priority = none → n.buildUrl = .ok (queryCore n)) ∧
    (∀ n : Notification, ∀ p, n.priority = some p →
      n.buildUrl = .ok (queryCore n ++
        (strBytes (r"&priority=") ++ intDecimal p.as_i8))) := by
  refine ⟨⟨rfl, rfl, rfl, rfl, rfl⟩, fun n hn => ?_, fun n p hp => ?_⟩
  · rw [buildUrl_eq_core n, hn]
    simp
  · rw [buildUrl_eq_core n, hp]

/-- Witness for C6 at a concrete priority-less notification. -/
theorem priority_codes_and_none_omitted_witness :
    (⟨[strBytes (r"K")], none, none, strBytes (r"A"), strBytes (r"E"),
        strBytes (r"D")⟩ : Notification).buildUrl =
      .ok (queryCore ⟨[strBytes (r"K")], none, none, strBytes (r"A"),
        strBytes (r"E"), strBytes (r"D")⟩) :=
  priority_codes_and_none_omitted.2.1 _ rfl

/-- Claim C7: the `apikey` query parameter is the API keys joined with
commas, with no percent-encoding applied: it is plain comma intercalation
of the raw keys, `["AAA","BBB"]` yields `AAA,BBB`, and that joined value is
exactly what follows `?apikey=` in the URL `add` builds. -/
theorem apikey_comma_join_unencoded :
    (∀ ks : List RStr, joinComma ks = List.intercalate [44] ks) ∧
    joinComma [strBytes (r"AAA"), strBytes (r"BBB")] = strBytes (r"AAA,BBB") ∧
    (∀ n : Notification,
      n.buildUrl = .ok (strBytes (r"https://prowl.weks.net/publicapi/add") ++
        strBytes (r"?apikey=") ++ joinComma n.api_keys ++ afterApikey n)) := by
  refine ⟨joinComma_eq_intercalate, by decide, fun n => ?_⟩
  rw [buildUrl_eq_core n]
  exact congrArg Except.ok (by simp [queryCore, afterApikey, List.append_assoc])

/-- Claim C8: `add` can never return `AddError::Format`: building the URL
in memory cannot fail, so the `Format` variant is unreachable. -/
theorem add_never_format_error (n : Notification) (outcome : SendOutcome)
    (e : FmtError) : (n.add outcome).1 ≠ .error (.Format e) := by
  have h := buildUrl_eq_core n
  unfold Notification.add
  rw [h]
  cases outcome with
  | ok r => by_cases hs : r.status = 200 <;> simp [hs]
  | err e2 => simp

/-- Witness for C8 at a concrete notification and outcome. -/
theorem add_never_format_error_witness :
    ((⟨[], none, none, [], [], []⟩ : Notification).add
        (SendOutcome.err ⟨0⟩)).1 ≠ .error (.Format .mk) :=
  add_never_format_error _ _ _

/-- Claim C9: `new` puts no constraint on the API keys: an empty key
vector is accepted whenever the four length bounds hold, the comma-join of
no keys is the empty string, and such a notification's URL carries an empty
`apikey` parameter value. -/
theorem empty_api_keys_accepted (pr : Option Priority) (url : Option RStr)
    (app ev d : RStr) (happ : app.length ≤ 256) (hev : ev.length ≤ 1024)
    (hd : d.length ≤ 10000) (hurl : ∀ u, url = some u → u.length ≤ 512) :
    (Notification.new [] pr url app ev d = .ok ⟨[], pr, url, app, ev, d⟩) ∧
    joinComma [] = ([] : RStr) ∧
    (∀ n : Notification, n.api_keys = [] →
      n.buildUrl = .ok (strBytes (r"https://prowl.weks.net/publicapi/add") ++
        strBytes (r"?apikey=") ++ afterApikey n)) := by
  refine ⟨new_ok_of_bounds [] pr url app ev d happ hev hd hurl, rfl,
    fun n hn => ?_⟩
  rw [buildUrl_eq_core n]
  exact congrArg Except.ok
    (by simp [queryCore, afterApikey, hn, joinComma, List.append_assoc])

/-- Witness for C9 at concrete field values. -/
theorem empty_api_keys_accepted_witness :
    Notification.new [] none none (strBytes (r"A")) (strBytes (r"E"))
        (strBytes (r"D")) =
      .ok ⟨[], none, none, strBytes (r"A"), strBytes (r"E"), strBytes (r"D")⟩ :=
  (empty_api_keys_accepted none none _ _ _ (by decide) (by decide) (by decide)
    (fun u hu => nomatch hu)).1

/-- Claim C10: `add` leaves the notification unchanged: the request a call
issues is a function of the fields alone, so any two calls on the same
value POST the same single URL, namely the one `buildUrl` computes. -/
theorem add_borrows_immutable (n : Notification) (o o' : SendOutcome) :
    (n.add o).2 = (n.add o').2 ∧
    (∀ u, n.buildUrl = .ok u → (n.add o).2 = [u]) := by
  have key : ∀ (o0 : SendOutcome) (u : RStr), n.buildUrl = .ok u →
      (n.add o0).2 = [u] := by
    intro o0 u hu
    unfold Notification.add
    rw [hu]
    cases o0 with
    | ok r => by_cases h1 : r.status = 200 <;> simp [h1]
    | err e => simp
  obtain ⟨u0, hu0⟩ : ∃ u0, n.buildUrl = .ok u0 := ⟨_, buildUrl_eq_core n⟩
  exact ⟨(key o u0 hu0).trans (key o' u0 hu0).symm, key o⟩

/-- Witness for C10: two calls with different outcomes POST the same URL. -/
theorem add_borrows_immutable_witness :
    ((⟨[], none, none, [], [], []⟩ : Notification).add
        (SendOutcome.err ⟨7⟩)).2 =
      [queryCore (⟨[], none, none, [], [], []⟩ : Notification)] :=
  (add_borrows_immutable _ (SendOutcome.err ⟨7⟩) (SendOutcome.ok ⟨200, []⟩)).2
    _ rfl

end Prowl
